import Mathlib

/-!
Verification of the cadwyn/universi instruction-registration core.

This file shallowly embeds the two source modules
`cadwyn/structure/data.py` and `universi/structure/endpoints.py`:
payload views (`RequestInfo`, `ResponseInfo`), the internal
body-representation registry, the request/response alter-data
instructions with their registration decorators, and the endpoint
instruction factory with its `Sentinel` defaults.  Python in-place
mutation becomes explicit state passing, exceptions become
`Except String`, and `dict` becomes an association list.
-/

namespace Cadwyn

/-- A decoded structured payload body (the `body: Any` slot of the views). -/
inductive Body where
  | null : Body
  | str : String → Body
  | num : Int → Body
  | arr : List Body → Body
  | obj : List (String × Body) → Body

/-- Identity of a Python class (a pydantic schema or an internal representation):
its defining module and its `__name__`. -/
structure Schema where
  module : String
  name : String
deriving DecidableEq

/-- String-keyed dictionary (Python `dict[str, str]` / `MutableHeaders`). -/
abbrev Dict := List (String × String)

/-- Assignment `d[k] = v`: replace the first binding of `k`, or append a new one. -/
def dictSet : Dict → String → String → Dict
  | [], k, v => [(k, v)]
  | (k1, v1) :: rest, k, v =>
      if k1 = k then (k, v) :: rest else (k1, v1) :: dictSet rest k v

/-- Lookup `d.get(k)`: first binding of `k`, if any. -/
def dictGet : Dict → String → Option String
  | [], _ => none
  | (k1, v1) :: rest, k => if k1 = k then some v1 else dictGet rest k

/-- The transport-level request the `RequestInfo` view wraps: live headers
plus the cookie and query-parameter dictionaries starlette derives from the
raw request data. -/
structure Request where
  headers : Dict
  cookies : Dict
  query_params : Dict
deriving DecidableEq

/-- Slots of `RequestInfo`: an owned body, a header dictionary, the cookie
and query-parameter snapshots, and the wrapped transport request. -/
structure RequestInfo where
  body : Body
  headers : Dict
  _cookies : Dict
  _query_params : Dict
  _request : Request

/-- Constructor `RequestInfo.__init__(self, request, body)`: store the body, take a
mutable copy of the request headers, snapshot `request.cookies` and
`request.query_params._dict`, and keep the request. -/
def RequestInfo.ofRequest (request : Request) (body : Body) : RequestInfo :=
  { body := body
    headers := request.headers
    _cookies := request.cookies
    _query_params := request.query_params
    _request := request }

/-- The read-only `cookies` property. -/
def RequestInfo.cookies (ri : RequestInfo) : Dict := ri._cookies

/-- The read-only `query_params` property. -/
def RequestInfo.query_params (ri : RequestInfo) : Dict := ri._query_params

/-- A transformer assigning `request_info.body = b`. -/
def RequestInfo.setBody (ri : RequestInfo) (b : Body) : RequestInfo :=
  { ri with body := b }

/-- A transformer assigning `request_info.headers[k] = v`; it writes the
own header copy of the view, never the wrapped request. -/
def RequestInfo.setHeader (ri : RequestInfo) (k v : String) : RequestInfo :=
  { ri with headers := dictSet ri.headers k v }

/-- The transport-level response the `ResponseInfo` view wraps: a live
status code and live headers. -/
structure Response where
  status_code : Int
  headers : Dict
deriving DecidableEq

/-- Modelled from the spec: the starlette `Response.set_cookie`, which the
view forwards to, records the cookie on the transport response (as a
`set-cookie` header entry). `Response` itself is an external collaborator
class, not part of the sources. -/
def Response.set_cookie (r : Response) (key value : String) : Response :=
  { r with headers := r.headers ++ [("set-cookie", key ++ "=" ++ value)] }

/-- Modelled from the spec: the starlette `Response.delete_cookie`, which the
view forwards to, records an expired cookie on the transport response. -/
def Response.delete_cookie (r : Response) (key : String) : Response :=
  { r with headers := r.headers ++ [("set-cookie", key ++ "=; Max-Age=0")] }

/-- Slots of `ResponseInfo`: an owned body and the wrapped transport
response. -/
structure ResponseInfo where
  body : Body
  _response : Response

/-- The `status_code` property getter: reads the wrapped response. -/
def ResponseInfo.status_code (ri : ResponseInfo) : Int :=
  ri._response.status_code

/-- The `status_code` property setter: writes the wrapped response. -/
def ResponseInfo.setStatusCode (ri : ResponseInfo) (value : Int) : ResponseInfo :=
  { ri with _response := { ri._response with status_code := value } }

/-- The `headers` property: the live headers of the wrapped response. -/
def ResponseInfo.headers (ri : ResponseInfo) : Dict :=
  ri._response.headers

/-- A transformer assigning `response_info.headers[k] = v`; because the
property is the live headers, this writes the wrapped response. -/
def ResponseInfo.setHeader (ri : ResponseInfo) (k v : String) : ResponseInfo :=
  { ri with _response :=
      { ri._response with headers := dictSet ri._response.headers k v } }

/-- Method `ResponseInfo.set_cookie`: forwards to the wrapped response. -/
def ResponseInfo.set_cookie (ri : ResponseInfo) (key value : String) : ResponseInfo :=
  { ri with _response := ri._response.set_cookie key value }

/-- Method `ResponseInfo.delete_cookie`: forwards to the wrapped response. -/
def ResponseInfo.delete_cookie (ri : ResponseInfo) (key : String) : ResponseInfo :=
  { ri with _response := ri._response.delete_cookie key }

/-- The module-level `_SCHEMA_TO_INTERNAL_REQUEST_BODY_REPRESENTATION_MAPPING`
dictionary: public schema to internal representation. -/
abbrev RepresentationMapping := List (Schema × Schema)

/-- Python `dict` lookup on the representation mapping. -/
def mappingLookup : RepresentationMapping → Schema → Option Schema
  | [], _ => none
  | (k, v) :: rest, s => if k = s then some v else mappingLookup rest s

/-- Decorator `internal_body_representation_of(represents)(cls)` run against the
current mapping state: raise `TypeError` naming the preexisting
representation when `represents` is already mapped (state unchanged),
otherwise record `cls` and return it. -/
def internal_body_representation_of (represents : Schema) (cls : Schema)
    (mapping : RepresentationMapping) : Except String Schema × RepresentationMapping :=
  match mappingLookup mapping represents with
  | some preexisting_representation =>
      (Except.error (represents.name ++ " already has an internal request body representation: "
          ++ preexisting_representation.module ++ "." ++ preexisting_representation.name),
        mapping)
  | none => (Except.ok cls, mapping ++ [(represents, cls)])

/-- An author-supplied transformer function over payload views of type `π`:
its `__name__`, its declared parameter list as `inspect.signature` reports
it, and the mutation it performs. -/
structure Transformer (π : Type) where
  name : String
  params : List String
  fn : π → π

/-- Validation `_AlterDataInstruction.__post_init__`: the declared parameter
list of the transformer must be exactly `[_payload_arg_name]`, else `ValueError`. -/
def _validate_transformer_params (payload_arg_name : String) {π : Type}
    (transformer : Transformer π) : Except String Unit :=
  if transformer.params = [payload_arg_name] then Except.ok ()
  else Except.error ("Method \x27" ++ transformer.name
      ++ "\x27 must have 2 parameters: cls and " ++ payload_arg_name)

/-- The matcher of an instruction: `schema` field of the by-schema dataclasses,
or the `path`/`methods` fields of the by-path dataclasses (`methods` is the
Python `set` built from the decorator list argument). -/
inductive Matcher where
  | bySchema : Schema → Matcher
  | byPath : String → Finset String → Matcher
deriving DecidableEq

/-- A constructed request-direction alter-data instruction
(`AlterRequestBySchemaInstruction` / `AlterRequestByPathInstruction`):
transformer, the `owner` recorded later by `__set_name__` (absent right
after construction, as `field(init=False)`), and the matcher. -/
structure AlterRequestInstruction where
  transformer : Transformer RequestInfo
  owner : Option String
  matcher : Matcher

/-- Constructing `AlterRequestBySchemaInstruction(schema=..., transformer=...)`:
runs `__post_init__` with `_payload_arg_name = "request"`. -/
def AlterRequestBySchemaInstruction (schema : Schema)
    (transformer : Transformer RequestInfo) : Except String AlterRequestInstruction :=
  (_validate_transformer_params "request" transformer).map
    fun _ => { transformer := transformer, owner := none, matcher := Matcher.bySchema schema }

/-- Constructing `AlterRequestByPathInstruction(path=..., methods=..., transformer=...)`:
runs `__post_init__` with `_payload_arg_name = "request"`. -/
def AlterRequestByPathInstruction (path : String) (methods : Finset String)
    (transformer : Transformer RequestInfo) : Except String AlterRequestInstruction :=
  (_validate_transformer_params "request" transformer).map
    fun _ => { transformer := transformer, owner := none, matcher := Matcher.byPath path methods }

/-- Hook `_AlterDataInstruction.__set_name__`: record the owning version class. -/
def AlterRequestInstruction.set_name (i : AlterRequestInstruction)
    (owner : String) : AlterRequestInstruction :=
  { i with owner := some owner }

/-- Invocation `_AlterDataInstruction.__call__`: apply the transformer to the payload
view, with no further checking. -/
def AlterRequestInstruction.call (i : AlterRequestInstruction)
    (request_or_response : RequestInfo) : RequestInfo :=
  i.transformer.fn request_or_response

/-- A constructed response-direction alter-data instruction
(`AlterResponseBySchemaInstruction` / `AlterResponseByPathInstruction`). -/
structure AlterResponseInstruction where
  transformer : Transformer ResponseInfo
  owner : Option String
  matcher : Matcher

/-- Constructing `AlterResponseBySchemaInstruction(schema=..., transformer=...)`:
runs `__post_init__` with `_payload_arg_name = "response"`. -/
def AlterResponseBySchemaInstruction (schema : Schema)
    (transformer : Transformer ResponseInfo) : Except String AlterResponseInstruction :=
  (_validate_transformer_params "response" transformer).map
    fun _ => { transformer := transformer, owner := none, matcher := Matcher.bySchema schema }

/-- Constructing `AlterResponseByPathInstruction(path=..., methods=..., transformer=...)`:
runs `__post_init__` with `_payload_arg_name = "response"`. -/
def AlterResponseByPathInstruction (path : String) (methods : Finset String)
    (transformer : Transformer ResponseInfo) : Except String AlterResponseInstruction :=
  (_validate_transformer_params "response" transformer).map
    fun _ => { transformer := transformer, owner := none, matcher := Matcher.byPath path methods }

/-- Hook `_AlterDataInstruction.__set_name__` for the response direction. -/
def AlterResponseInstruction.set_name (i : AlterResponseInstruction)
    (owner : String) : AlterResponseInstruction :=
  { i with owner := some owner }

/-- Invocation `_AlterDataInstruction.__call__` for the response direction. -/
def AlterResponseInstruction.call (i : AlterResponseInstruction)
    (request_or_response : ResponseInfo) : ResponseInfo :=
  i.transformer.fn request_or_response

/-- The first positional argument of a conversion decorator: a schema type
or a path string (`isinstance(schema_or_path, str)` discriminates). -/
inductive SchemaOrPath where
  | schema : Schema → SchemaOrPath
  | path : String → SchemaOrPath
deriving DecidableEq

/-- Validation `_validate_decorator_args(schema_or_path, methods)`: a path needs
`methods`, a schema forbids it. -/
def _validate_decorator_args (schema_or_path : SchemaOrPath)
    (methods : Option (List String)) : Except String Unit :=
  match schema_or_path with
  | SchemaOrPath.path _ =>
      if methods.isNone then
        Except.error "If path was provided as a first argument, methods must be provided as a second argument"
      else Except.ok ()
  | SchemaOrPath.schema _ =>
      if methods.isNone then Except.ok ()
      else Except.error "If schema was provided as a first argument, methods argument should not be provided"

/-- Decorator factory `convert_request_to_next_version_for(schema_or_path, methods)`: validate
the arguments first, then return the decorator that wraps a transformer
into the matching request instruction. -/
def convert_request_to_next_version_for (schema_or_path : SchemaOrPath)
    (methods : Option (List String)) :
    Except String (Transformer RequestInfo → Except String AlterRequestInstruction) := do
  _validate_decorator_args schema_or_path methods
  pure fun transformer =>
    match schema_or_path with
    | SchemaOrPath.path p =>
        AlterRequestByPathInstruction p (methods.getD []).toFinset transformer
    | SchemaOrPath.schema s =>
        AlterRequestBySchemaInstruction s transformer

/-- Decorator factory `convert_response_to_previous_version_for(schema_or_path, methods)`:
validate the arguments first, then return the decorator that wraps a
transformer into the matching response instruction. -/
def convert_response_to_previous_version_for (schema_or_path : SchemaOrPath)
    (methods : Option (List String)) :
    Except String (Transformer ResponseInfo → Except String AlterResponseInstruction) := do
  _validate_decorator_args schema_or_path methods
  pure fun transformer =>
    match schema_or_path with
    | SchemaOrPath.path p =>
        AlterResponseByPathInstruction p (methods.getD []).toFinset transformer
    | SchemaOrPath.schema s =>
        AlterResponseBySchemaInstruction s transformer

end Cadwyn

namespace Universi

/-- Modelled from the spec: `universi._utils.Sentinel` (not under the
sources) is a dedicated "unset" marker, distinct from every legitimate
attribute value including `None`.  An attribute slot therefore holds either
the sentinel or an actual value. -/
inductive SentinelOr (α : Type) where
  | Sentinel : SentinelOr α
  | val : α → SentinelOr α
deriving DecidableEq

/-- A Python default-argument slot: `none` when the caller omitted the
keyword, `some v` when it supplied `v`. -/
def SentinelOr.fromOption {α : Type} : Option α → SentinelOr α
  | none => SentinelOr.Sentinel
  | some v => SentinelOr.val v

/-- Dataclass `EndpointAttributesPayload`: the per-version endpoint attribute
overrides.  Each field holds either the `Sentinel` default or a supplied
value; the payload value types are abstracted to simple carriers. -/
structure EndpointAttributesPayload where
  path : SentinelOr String
  status_code : SentinelOr Int
  tags : SentinelOr (List String)
  dependencies : SentinelOr (List String)
  summary : SentinelOr String
  description : SentinelOr String
  response_description : SentinelOr String
  responses : SentinelOr (List (Int × String))
  deprecated : SentinelOr (Option Bool)
  methods : SentinelOr (List String)
  operation_id : SentinelOr (Option String)
  include_in_schema : SentinelOr Bool
  response_class : SentinelOr String
  name : SentinelOr String
  callbacks : SentinelOr (List String)
  openapi_extra : SentinelOr (List (String × String))
  generate_unique_id_function : SentinelOr String
deriving DecidableEq

/-- Dataclass `EndpointHadInstruction`: endpoint key plus attribute overrides. -/
structure EndpointHadInstruction where
  endpoint_path : String
  endpoint_methods : List String
  attributes : EndpointAttributesPayload
deriving DecidableEq

/-- Dataclass `EndpointExistedInstruction`: endpoint key only. -/
structure EndpointExistedInstruction where
  endpoint_path : String
  endpoint_methods : List String
deriving DecidableEq

/-- Dataclass `EndpointDidntExistInstruction`: endpoint key only. -/
structure EndpointDidntExistInstruction where
  endpoint_path : String
  endpoint_methods : List String
deriving DecidableEq

/-- Dataclass `EndpointInstructionFactory`: carries the endpoint key the three
instruction kinds are built from. -/
structure EndpointInstructionFactory where
  endpoint_path : String
  endpoint_methods : List String
deriving DecidableEq

/-- The `didnt_exist` property. -/
def EndpointInstructionFactory.didnt_exist
    (f : EndpointInstructionFactory) : EndpointDidntExistInstruction :=
  { endpoint_path := f.endpoint_path, endpoint_methods := f.endpoint_methods }

/-- The `existed` property. -/
def EndpointInstructionFactory.existed
    (f : EndpointInstructionFactory) : EndpointExistedInstruction :=
  { endpoint_path := f.endpoint_path, endpoint_methods := f.endpoint_methods }

/-- The keyword arguments a caller of `had(...)` supplies: `none` means the
keyword was omitted (so the Python default `Sentinel` applies). -/
structure HadArgs where
  path : Option String
  status_code : Option Int
  tags : Option (List String)
  dependencies : Option (List String)
  summary : Option String
  description : Option String
  response_description : Option String
  responses : Option (List (Int × String))
  deprecated : Option (Option Bool)
  methods : Option (List String)
  operation_id : Option (Option String)
  include_in_schema : Option Bool
  response_class : Option String
  name : Option String
  callbacks : Option (List String)
  openapi_extra : Option (List (String × String))
  generate_unique_id_function : Option String
deriving DecidableEq

/-- Method `EndpointInstructionFactory.had(...)`: build an `EndpointHadInstruction`
for the key of this factory whose attributes are the supplied values, with every
omitted keyword defaulting to `Sentinel`. -/
def EndpointInstructionFactory.had (f : EndpointInstructionFactory)
    (args : HadArgs) : EndpointHadInstruction :=
  { endpoint_path := f.endpoint_path
    endpoint_methods := f.endpoint_methods
    attributes :=
      { path := SentinelOr.fromOption args.path
        status_code := SentinelOr.fromOption args.status_code
        tags := SentinelOr.fromOption args.tags
        dependencies := SentinelOr.fromOption args.dependencies
        summary := SentinelOr.fromOption args.summary
        description := SentinelOr.fromOption args.description
        response_description := SentinelOr.fromOption args.response_description
        responses := SentinelOr.fromOption args.responses
        deprecated := SentinelOr.fromOption args.deprecated
        methods := SentinelOr.fromOption args.methods
        operation_id := SentinelOr.fromOption args.operation_id
        include_in_schema := SentinelOr.fromOption args.include_in_schema
        response_class := SentinelOr.fromOption args.response_class
        name := SentinelOr.fromOption args.name
        callbacks := SentinelOr.fromOption args.callbacks
        openapi_extra := SentinelOr.fromOption args.openapi_extra
        generate_unique_id_function := SentinelOr.fromOption args.generate_unique_id_function } }

/-- Function `endpoint(endpoint_path, endpoint_methods)`: the public factory
constructor. -/
def endpoint (endpoint_path : String) (endpoint_methods : List String) :
    EndpointInstructionFactory :=
  { endpoint_path := endpoint_path, endpoint_methods := endpoint_methods }

end Universi

namespace Cadwyn

/-- Constructing an alter-data instruction succeeds exactly when the
declared parameters of the transformer are `[payload_arg_name]`. -/
theorem validate_map_ok_iff {π α : Type} (arg : String) (t : Transformer π)
    (g : Unit → α) :
    (∃ i, (_validate_transformer_params arg t).map g = Except.ok i)
      ↔ t.params = [arg] := by
  unfold _validate_transformer_params
  by_cases h : t.params = [arg] <;> simp [h, Except.map]

/-- Looking a key up after appending a fresh binding at the end. -/
theorem mappingLookup_append (m : RepresentationMapping) (s c k : Schema) :
    mappingLookup (m ++ [(s, c)]) k
      = match mappingLookup m k with
        | some v => some v
        | none => if s = k then some c else none := by
  induction m with
  | nil => simp [mappingLookup]
  | cons hd tl ih =>
      obtain ⟨k1, v1⟩ := hd
      by_cases h : k1 = k <;> simp [mappingLookup, h, ih]

/-- A key is absent from the mapping exactly when lookup misses. -/
theorem mappingLookup_eq_none_iff (m : RepresentationMapping) (s : Schema) :
    mappingLookup m s = none ↔ s ∉ m.map Prod.fst := by
  induction m with
  | nil => simp [mappingLookup]
  | cons hd tl ih =>
      obtain ⟨k1, v1⟩ := hd
      simp only [mappingLookup, List.map_cons, List.mem_cons]
      by_cases h : k1 = s
      · subst h; simp
      · rw [if_neg h, ih]
        constructor
        · intro hn hc
          rcases hc with hc | hc
          · exact h hc.symm
          · exact hn hc
        · intro hn hc
          exact hn (Or.inr hc)

/-- C1: for both conversion decorators, a path first argument with `methods`
omitted, and a schema first argument with `methods` supplied, are rejected
with the descriptive validation errors before any decorator (hence any
instruction) is produced, while a schema alone and a path with `methods`
pass validation and yield the decorator. -/
theorem C1_decorator_arg_validation :
    (∀ p : String,
      convert_request_to_next_version_for (SchemaOrPath.path p) none
        = Except.error "If path was provided as a first argument, methods must be provided as a second argument"
      ∧ convert_response_to_previous_version_for (SchemaOrPath.path p) none
        = Except.error "If path was provided as a first argument, methods must be provided as a second argument")
    ∧ (∀ (s : Schema) (ms : List String),
      convert_request_to_next_version_for (SchemaOrPath.schema s) (some ms)
        = Except.error "If schema was provided as a first argument, methods argument should not be provided"
      ∧ convert_response_to_previous_version_for (SchemaOrPath.schema s) (some ms)
        = Except.error "If schema was provided as a first argument, methods argument should not be provided")
    ∧ (∀ s : Schema,
      (∃ d, convert_request_to_next_version_for (SchemaOrPath.schema s) none = Except.ok d)
      ∧ ∃ d, convert_response_to_previous_version_for (SchemaOrPath.schema s) none = Except.ok d)
    ∧ (∀ (p : String) (ms : List String),
      (∃ d, convert_request_to_next_version_for (SchemaOrPath.path p) (some ms) = Except.ok d)
      ∧ ∃ d, convert_response_to_previous_version_for (SchemaOrPath.path p) (some ms) = Except.ok d) :=
  ⟨fun _ => ⟨rfl, rfl⟩, fun _ _ => ⟨rfl, rfl⟩,
   fun _ => ⟨⟨_, rfl⟩, ⟨_, rfl⟩⟩, fun _ _ => ⟨⟨_, rfl⟩, ⟨_, rfl⟩⟩⟩

/-- C2: constructing any of the four alter-data instructions succeeds
exactly when the declared parameter list of the transformer is `["request"]`
(request direction) or `["response"]` (response direction), and invoking a
constructed instruction just applies the transformer, with no further
signature check at payload-migration time. -/
theorem C2_transformer_signature_checked_at_construction :
    (∀ (s : Schema) (t : Transformer RequestInfo),
      (∃ i, AlterRequestBySchemaInstruction s t = Except.ok i) ↔ t.params = ["request"])
    ∧ (∀ (p : String) (ms : Finset String) (t : Transformer RequestInfo),
      (∃ i, AlterRequestByPathInstruction p ms t = Except.ok i) ↔ t.params = ["request"])
    ∧ (∀ (s : Schema) (t : Transformer ResponseInfo),
      (∃ i, AlterResponseBySchemaInstruction s t = Except.ok i) ↔ t.params = ["response"])
    ∧ (∀ (p : String) (ms : Finset String) (t : Transformer ResponseInfo),
      (∃ i, AlterResponseByPathInstruction p ms t = Except.ok i) ↔ t.params = ["response"])
    ∧ (∀ (i : AlterRequestInstruction) (r : RequestInfo), i.call r = i.transformer.fn r)
    ∧ (∀ (i : AlterResponseInstruction) (r : ResponseInfo), i.call r = i.transformer.fn r) :=
  ⟨fun _ t => validate_map_ok_iff "request" t _,
   fun _ _ t => validate_map_ok_iff "request" t _,
   fun _ t => validate_map_ok_iff "response" t _,
   fun _ _ t => validate_map_ok_iff "response" t _,
   fun _ _ => rfl, fun _ _ => rfl⟩

/-- C3: registering an internal representation for a schema with no prior
registration succeeds and records it; a second registration for the same
schema raises the `TypeError` naming the first internal representation and,
in particular, registering twice in a row produces exactly that error; keys
stay unduplicated, so at most one representation is mapped per schema. -/
theorem C3_internal_representation_registry :
    (∀ (m : RepresentationMapping) (s c : Schema),
      mappingLookup m s = none →
        internal_body_representation_of s c m = (Except.ok c, m ++ [(s, c)])
        ∧ mappingLookup (m ++ [(s, c)]) s = some c)
    ∧ (∀ (m : RepresentationMapping) (s c c1 : Schema),
      mappingLookup m s = some c1 →
        internal_body_representation_of s c m
          = (Except.error (s.name ++ " already has an internal request body representation: "
              ++ c1.module ++ "." ++ c1.name), m))
    ∧ (∀ (m : RepresentationMapping) (s c c2 : Schema),
      mappingLookup m s = none →
        internal_body_representation_of s c2 (internal_body_representation_of s c m).2
          = (Except.error (s.name ++ " already has an internal request body representation: "
              ++ c.module ++ "." ++ c.name), m ++ [(s, c)]))
    ∧ (∀ (m : RepresentationMapping) (s c : Schema),
      (m.map Prod.fst).Nodup →
        ((internal_body_representation_of s c m).2.map Prod.fst).Nodup) := by
  have hfresh : ∀ (m : RepresentationMapping) (s c : Schema),
      mappingLookup m s = none → mappingLookup (m ++ [(s, c)]) s = some c := by
    intro m s c h
    rw [mappingLookup_append, h]
    simp
  refine ⟨?_, ?_, ?_, ?_⟩
  · intro m s c h
    refine ⟨?_, hfresh m s c h⟩
    unfold internal_body_representation_of
    rw [h]
  · intro m s c c1 h
    unfold internal_body_representation_of
    rw [h]
  · intro m s c c2 h
    have h2 : (internal_body_representation_of s c m).2 = m ++ [(s, c)] := by
      unfold internal_body_representation_of
      rw [h]
    rw [h2]
    unfold internal_body_representation_of
    rw [hfresh m s c h]
  · intro m s c hnd
    rcases hcase : mappingLookup m s with _ | c1
    · have h2 : (internal_body_representation_of s c m).2 = m ++ [(s, c)] := by
        unfold internal_body_representation_of
        rw [hcase]
      rw [h2, List.map_append]
      rw [List.nodup_append]
      refine ⟨hnd, List.nodup_singleton s, ?_⟩
      intro x hx hmem
      simp only [List.map_cons, List.map_nil, List.mem_singleton] at hmem
      subst hmem
      exact (mappingLookup_eq_none_iff m x).mp hcase hx
    · have h2 : (internal_body_representation_of s c m).2 = m := by
        unfold internal_body_representation_of
        rw [hcase]
      rw [h2]
      exact hnd

/-- C3 witness: a first registration on the empty mapping succeeds
recording the representation, and a duplicate registration for the same
schema fails naming the first registrant. -/
theorem C3_internal_representation_registry_witness :
    (internal_body_representation_of ⟨"pub", "A"⟩ ⟨"core", "AInternal"⟩ []
      = (Except.ok ⟨"core", "AInternal"⟩, [(⟨"pub", "A"⟩, ⟨"core", "AInternal"⟩)])
      ∧ mappingLookup ([] ++ [(⟨"pub", "A"⟩, ⟨"core", "AInternal"⟩)]) ⟨"pub", "A"⟩
        = some ⟨"core", "AInternal"⟩)
    ∧ internal_body_representation_of ⟨"pub", "A"⟩ ⟨"core", "B"⟩
        [(⟨"pub", "A"⟩, ⟨"core", "AInternal"⟩)]
      = (Except.error ((Schema.mk "pub" "A").name
            ++ " already has an internal request body representation: "
            ++ (Schema.mk "core" "AInternal").module ++ "." ++ (Schema.mk "core" "AInternal").name),
          [(⟨"pub", "A"⟩, ⟨"core", "AInternal"⟩)]) :=
  ⟨C3_internal_representation_registry.1 [] ⟨"pub", "A"⟩ ⟨"core", "AInternal"⟩ rfl,
   C3_internal_representation_registry.2.1 [(⟨"pub", "A"⟩, ⟨"core", "AInternal"⟩)]
     ⟨"pub", "A"⟩ ⟨"core", "B"⟩ ⟨"core", "AInternal"⟩ (by decide)⟩

/-- C10: the registry operation is atomic on error and identity-preserving
on success: a duplicate registration leaves the mapping exactly as it was
(so the first registration survives), while a fresh registration returns
the decorated class itself and changes the mapping at the registered key
only. -/
theorem C10_registry_atomic_and_identity_preserving :
    ∀ (m : RepresentationMapping) (s c : Schema),
      ((mappingLookup m s).isSome → (internal_body_representation_of s c m).2 = m)
      ∧ (mappingLookup m s = none →
        (internal_body_representation_of s c m).1 = Except.ok c
        ∧ ∀ k, mappingLookup (internal_body_representation_of s c m).2 k
            = if k = s then some c else mappingLookup m k) := by
  intro m s c
  constructor
  · intro hsome
    rcases hcase : mappingLookup m s with _ | c1
    · rw [hcase] at hsome; simp at hsome
    · unfold internal_body_representation_of
      rw [hcase]
  · intro hnone
    have h2 : internal_body_representation_of s c m = (Except.ok c, m ++ [(s, c)]) := by
      unfold internal_body_representation_of
      rw [hnone]
    rw [h2]
    refine ⟨rfl, ?_⟩
    intro k
    rw [mappingLookup_append]
    by_cases hk : k = s
    · subst hk
      rw [hnone]
    · have hks : ¬s = k := fun h => hk h.symm
      rcases hcase : mappingLookup m k with _ | v
      · simp [hk, hks]
      · simp [hk]

/-- C10 witness: on a mapping already containing the schema the duplicate
registration leaves the state unchanged, and on a fresh schema the
registration returns the class and extends the mapping at that key only. -/
theorem C10_registry_atomic_witness :
    ((internal_body_representation_of ⟨"pub", "A"⟩ ⟨"core", "B"⟩
        [(⟨"pub", "A"⟩, ⟨"core", "AInternal"⟩)]).2
      = [(⟨"pub", "A"⟩, ⟨"core", "AInternal"⟩)])
    ∧ ((internal_body_representation_of ⟨"pub", "C"⟩ ⟨"core", "CInternal"⟩
          [(⟨"pub", "A"⟩, ⟨"core", "AInternal"⟩)]).1 = Except.ok ⟨"core", "CInternal"⟩
      ∧ ∀ k, mappingLookup (internal_body_representation_of ⟨"pub", "C"⟩ ⟨"core", "CInternal"⟩
            [(⟨"pub", "A"⟩, ⟨"core", "AInternal"⟩)]).2 k
          = if k = ⟨"pub", "C"⟩ then some ⟨"core", "CInternal"⟩
            else mappingLookup [(⟨"pub", "A"⟩, ⟨"core", "AInternal"⟩)] k) :=
  ⟨(C10_registry_atomic_and_identity_preserving
      [(⟨"pub", "A"⟩, ⟨"core", "AInternal"⟩)] ⟨"pub", "A"⟩ ⟨"core", "B"⟩).1 (by decide),
   (C10_registry_atomic_and_identity_preserving
      [(⟨"pub", "A"⟩, ⟨"core", "AInternal"⟩)] ⟨"pub", "C"⟩ ⟨"core", "CInternal"⟩).2 (by decide)⟩

/-- C4: a `RequestInfo` takes its cookie and query-parameter views and a
copy of the headers from the wrapped request at construction time; the
mutations available to transformers (body assignment and header writes) hit
only the fields owned by the view, leaving the wrapped transport request — its
headers included — and the cookie/query-parameter snapshots unchanged. -/
theorem C4_request_view_snapshots :
    ∀ (request : Request) (body : Body) (k v : String) (b2 : Body),
      (RequestInfo.ofRequest request body).cookies = request.cookies
      ∧ (RequestInfo.ofRequest request body).query_params = request.query_params
      ∧ (RequestInfo.ofRequest request body).headers = request.headers
      ∧ (RequestInfo.ofRequest request body)._request = request
      ∧ ((RequestInfo.ofRequest request body).setHeader k v)._request = request
      ∧ ((RequestInfo.ofRequest request body).setHeader k v)._request.headers = request.headers
      ∧ ((RequestInfo.ofRequest request body).setHeader k v).cookies = request.cookies
      ∧ ((RequestInfo.ofRequest request body).setHeader k v).query_params = request.query_params
      ∧ ((RequestInfo.ofRequest request body).setBody b2)._request = request
      ∧ ((RequestInfo.ofRequest request body).setBody b2).cookies = request.cookies
      ∧ ((RequestInfo.ofRequest request body).setBody b2).query_params = request.query_params :=
  fun _ _ _ _ _ => ⟨rfl, rfl, rfl, rfl, rfl, rfl, rfl, rfl, rfl, rfl, rfl⟩

/-- C5: a `ResponseInfo` delegates to the wrapped transport response:
reading `status_code` reads it, writing `status_code` writes it (touching
nothing else), the `headers` property is the live headers of the response (so a
header write is visible on the wrapped response), and the cookie operations
forward to the own operations of the wrapped response. -/
theorem C5_response_delegation :
    ∀ (response : Response) (body : Body) (v : Int) (k hv ck cv : String),
      (ResponseInfo.mk body response).status_code = response.status_code
      ∧ ((ResponseInfo.mk body response).setStatusCode v)._response.status_code = v
      ∧ ((ResponseInfo.mk body response).setStatusCode v)._response.headers = response.headers
      ∧ ((ResponseInfo.mk body response).setStatusCode v).body = body
      ∧ (ResponseInfo.mk body response).headers = response.headers
      ∧ ((ResponseInfo.mk body response).setHeader k hv)._response.headers
          = dictSet response.headers k hv
      ∧ ((ResponseInfo.mk body response).setHeader k hv).headers
          = dictSet response.headers k hv
      ∧ ((ResponseInfo.mk body response).set_cookie ck cv)._response
          = response.set_cookie ck cv
      ∧ ((ResponseInfo.mk body response).delete_cookie ck)._response
          = response.delete_cookie ck :=
  fun _ _ _ _ _ _ _ => ⟨rfl, rfl, rfl, rfl, rfl, rfl, rfl, rfl, rfl⟩

end Cadwyn

namespace Universi

/-- C6: `had(...)` fills every supplied keyword with the supplied value and
every omitted keyword with the `Sentinel` marker, and the `Sentinel` marker
differs from every legitimate attribute value — `None` included, since for
option-valued attributes `Sentinel ≠ val none`. -/
theorem C6_had_sentinel_defaults :
    (∀ (f : EndpointInstructionFactory) (args : HadArgs),
      (f.had args).attributes.path = SentinelOr.fromOption args.path
      ∧ (f.had args).attributes.status_code = SentinelOr.fromOption args.status_code
      ∧ (f.had args).attributes.tags = SentinelOr.fromOption args.tags
      ∧ (f.had args).attributes.dependencies = SentinelOr.fromOption args.dependencies
      ∧ (f.had args).attributes.summary = SentinelOr.fromOption args.summary
      ∧ (f.had args).attributes.description = SentinelOr.fromOption args.description
      ∧ (f.had args).attributes.response_description
          = SentinelOr.fromOption args.response_description
      ∧ (f.had args).attributes.responses = SentinelOr.fromOption args.responses
      ∧ (f.had args).attributes.deprecated = SentinelOr.fromOption args.deprecated
      ∧ (f.had args).attributes.methods = SentinelOr.fromOption args.methods
      ∧ (f.had args).attributes.operation_id = SentinelOr.fromOption args.operation_id
      ∧ (f.had args).attributes.include_in_schema
          = SentinelOr.fromOption args.include_in_schema
      ∧ (f.had args).attributes.response_class = SentinelOr.fromOption args.response_class
      ∧ (f.had args).attributes.name = SentinelOr.fromOption args.name
      ∧ (f.had args).attributes.callbacks = SentinelOr.fromOption args.callbacks
      ∧ (f.had args).attributes.openapi_extra = SentinelOr.fromOption args.openapi_extra
      ∧ (f.had args).attributes.generate_unique_id_function
          = SentinelOr.fromOption args.generate_unique_id_function)
    ∧ (∀ (α : Type) (v : α), SentinelOr.fromOption (some v) = SentinelOr.val v)
    ∧ (∀ α : Type, SentinelOr.fromOption (none : Option α) = SentinelOr.Sentinel)
    ∧ (∀ (α : Type) (v : α), (SentinelOr.Sentinel : SentinelOr α) ≠ SentinelOr.val v) :=
  ⟨fun _ _ =>
    ⟨rfl, rfl, rfl, rfl, rfl, rfl, rfl, rfl, rfl, rfl, rfl, rfl, rfl, rfl, rfl, rfl, rfl⟩,
   fun _ _ => rfl, fun _ => rfl,
   fun _ _ h => SentinelOr.noConfusion h⟩

/-- C7: the three instructions produced from `endpoint(path, methods)` all
carry exactly the `(endpoint_path, endpoint_methods)` key given to the
factory, unchanged. -/
theorem C7_endpoint_factory_key_unchanged :
    ∀ (p : String) (ms : List String) (args : HadArgs),
      (endpoint p ms).didnt_exist.endpoint_path = p
      ∧ (endpoint p ms).didnt_exist.endpoint_methods = ms
      ∧ (endpoint p ms).existed.endpoint_path = p
      ∧ (endpoint p ms).existed.endpoint_methods = ms
      ∧ ((endpoint p ms).had args).endpoint_path = p
      ∧ ((endpoint p ms).had args).endpoint_methods = ms :=
  fun _ _ _ => ⟨rfl, rfl, rfl, rfl, rfl, rfl⟩

end Universi

namespace Cadwyn

/-- C8: with valid arguments each conversion decorator wraps the
transformer into the matching instruction: a path with methods yields the
by-path instruction whose `methods` is the set of the given list, a schema
yields the by-schema instruction carrying that schema, request converters
producing request-direction instructions and response converters
response-direction ones. -/
theorem C8_decorator_constructs_matching_instruction :
    ∀ (p : String) (ms : List String) (s : Schema)
      (t : Transformer RequestInfo) (u : Transformer ResponseInfo),
      t.params = ["request"] → u.params = ["response"] →
      (∃ d, convert_request_to_next_version_for (SchemaOrPath.path p) (some ms) = Except.ok d
        ∧ d t = Except.ok
            { transformer := t, owner := none, matcher := Matcher.byPath p ms.toFinset })
      ∧ (∃ d, convert_request_to_next_version_for (SchemaOrPath.schema s) none = Except.ok d
        ∧ d t = Except.ok
            { transformer := t, owner := none, matcher := Matcher.bySchema s })
      ∧ (∃ d, convert_response_to_previous_version_for (SchemaOrPath.path p) (some ms) = Except.ok d
        ∧ d u = Except.ok
            { transformer := u, owner := none, matcher := Matcher.byPath p ms.toFinset })
      ∧ (∃ d, convert_response_to_previous_version_for (SchemaOrPath.schema s) none = Except.ok d
        ∧ d u = Except.ok
            { transformer := u, owner := none, matcher := Matcher.bySchema s }) := by
  intro p ms s t u ht hu
  refine ⟨⟨_, rfl, ?_⟩, ⟨_, rfl, ?_⟩, ⟨_, rfl, ?_⟩, ⟨_, rfl, ?_⟩⟩
  · show AlterRequestByPathInstruction p ((some ms).getD []).toFinset t = _
    unfold AlterRequestByPathInstruction _validate_transformer_params
    rw [if_pos ht]
    rfl
  · show AlterRequestBySchemaInstruction s t = _
    unfold AlterRequestBySchemaInstruction _validate_transformer_params
    rw [if_pos ht]
    rfl
  · show AlterResponseByPathInstruction p ((some ms).getD []).toFinset u = _
    unfold AlterResponseByPathInstruction _validate_transformer_params
    rw [if_pos hu]
    rfl
  · show AlterResponseBySchemaInstruction s u = _
    unfold AlterResponseBySchemaInstruction _validate_transformer_params
    rw [if_pos hu]
    rfl

/-- C8 witness: concrete decorator applications produce exactly the
expected instruction values in all four cases. -/
theorem C8_decorator_constructs_matching_instruction_witness :
    (∃ d, convert_request_to_next_version_for (SchemaOrPath.path "/a") (some ["GET", "POST"])
        = Except.ok d
      ∧ d ⟨"migrate", ["request"], id⟩ = Except.ok
          { transformer := ⟨"migrate", ["request"], id⟩, owner := none,
            matcher := Matcher.byPath "/a" (["GET", "POST"] : List String).toFinset })
    ∧ (∃ d, convert_request_to_next_version_for (SchemaOrPath.schema ⟨"m", "S"⟩) none
        = Except.ok d
      ∧ d ⟨"migrate", ["request"], id⟩ = Except.ok
          { transformer := ⟨"migrate", ["request"], id⟩, owner := none,
            matcher := Matcher.bySchema ⟨"m", "S"⟩ })
    ∧ (∃ d, convert_response_to_previous_version_for (SchemaOrPath.path "/a") (some ["GET", "POST"])
        = Except.ok d
      ∧ d ⟨"degrade", ["response"], id⟩ = Except.ok
          { transformer := ⟨"degrade", ["response"], id⟩, owner := none,
            matcher := Matcher.byPath "/a" (["GET", "POST"] : List String).toFinset })
    ∧ (∃ d, convert_response_to_previous_version_for (SchemaOrPath.schema ⟨"m", "S"⟩) none
        = Except.ok d
      ∧ d ⟨"degrade", ["response"], id⟩ = Except.ok
          { transformer := ⟨"degrade", ["response"], id⟩, owner := none,
            matcher := Matcher.bySchema ⟨"m", "S"⟩ }) :=
  C8_decorator_constructs_matching_instruction "/a" ["GET", "POST"] ⟨"m", "S"⟩
    ⟨"migrate", ["request"], id⟩ ⟨"degrade", ["response"], id⟩ rfl rfl

/-- C9: for fixed valid arguments the decorator returned by registration is
uniquely determined and applying it twice to the same transformer yields
equal instruction values; a freshly constructed instruction has no owner
yet, and the `__set_name__` attachment hook records the owning version on
it, so no instruction lacks an owner after attachment. -/
theorem C9_registration_idempotent_and_owner_attached :
    ∀ (sop : SchemaOrPath) (methods : Option (List String))
      (d d2 : Transformer RequestInfo → Except String AlterRequestInstruction)
      (t : Transformer RequestInfo),
      convert_request_to_next_version_for sop methods = Except.ok d →
      convert_request_to_next_version_for sop methods = Except.ok d2 →
      d t = d2 t
      ∧ (∀ i, d t = Except.ok i →
          i.owner = none ∧ ∀ ow, (i.set_name ow).owner = some ow) := by
  intro sop methods d d2 t h1 h2
  have hd : d = d2 := by
    rw [h1] at h2
    exact Except.ok.inj h2
  subst hd
  refine ⟨rfl, ?_⟩
  intro i hi
  refine ⟨?_, fun ow => rfl⟩
  cases sop with
  | schema s =>
      cases methods with
      | none =>
          have h3 : (fun tr => AlterRequestBySchemaInstruction s tr) = d :=
            Except.ok.inj h1
          have hdt : d t = AlterRequestBySchemaInstruction s t := congrFun h3.symm t
          rw [hdt] at hi
          unfold AlterRequestBySchemaInstruction _validate_transformer_params at hi
          by_cases hp : t.params = ["request"]
          · rw [if_pos hp] at hi
            have h4 : AlterRequestInstruction.mk t none (Matcher.bySchema s) = i :=
              Except.ok.inj hi
            rw [← h4]
          · rw [if_neg hp] at hi
            exact Except.noConfusion hi
      | some ms => exact Except.noConfusion h1
  | path p =>
      cases methods with
      | none => exact Except.noConfusion h1
      | some ms =>
          have h3 : (fun tr => AlterRequestByPathInstruction p ((some ms).getD []).toFinset tr)
              = d := Except.ok.inj h1
          have hdt : d t = AlterRequestByPathInstruction p ((some ms).getD []).toFinset t :=
            congrFun h3.symm t
          rw [hdt] at hi
          unfold AlterRequestByPathInstruction _validate_transformer_params at hi
          by_cases hp : t.params = ["request"]
          · rw [if_pos hp] at hi
            have h4 : AlterRequestInstruction.mk t none
                (Matcher.byPath p ((some ms).getD []).toFinset) = i :=
              Except.ok.inj hi
            rw [← h4]
          · rw [if_neg hp] at hi
            exact Except.noConfusion hi

/-- C9 witness: a concrete registration applied twice yields equal
instruction values, the constructed instruction starts ownerless, and the
attachment hook records the owner on it. -/
theorem C9_registration_idempotent_witness :
    (fun tr => AlterRequestBySchemaInstruction ⟨"m", "S"⟩ tr)
        (⟨"migrate", ["request"], id⟩ : Transformer RequestInfo)
      = (fun tr => AlterRequestBySchemaInstruction ⟨"m", "S"⟩ tr)
        (⟨"migrate", ["request"], id⟩ : Transformer RequestInfo)
    ∧ (AlterRequestInstruction.mk ⟨"migrate", ["request"], id⟩ none
        (Matcher.bySchema ⟨"m", "S"⟩)).owner = none
    ∧ ((AlterRequestInstruction.mk ⟨"migrate", ["request"], id⟩ none
        (Matcher.bySchema ⟨"m", "S"⟩)).set_name "v2001").owner = some "v2001" :=
  have h := C9_registration_idempotent_and_owner_attached
    (SchemaOrPath.schema ⟨"m", "S"⟩) none
    (fun tr => AlterRequestBySchemaInstruction ⟨"m", "S"⟩ tr)
    (fun tr => AlterRequestBySchemaInstruction ⟨"m", "S"⟩ tr)
    ⟨"migrate", ["request"], id⟩ rfl rfl
  have h2 := h.2 (AlterRequestInstruction.mk ⟨"migrate", ["request"], id⟩ none
      (Matcher.bySchema ⟨"m", "S"⟩)) rfl
  ⟨h.1, h2.1, h2.2 "v2001"⟩

end Cadwyn
